import Mathlib

/-
Verification of the blood-unit lifecycle and transfer ledger of the
blood-donation backend.  The definitions below are a shallow embedding of
the Mongoose models and Express controllers:

  * src/models/blood.models.js        (BloodDonation schema and methods)
  * src/models/center.models.js       (Center schema, updateBloodInventory)
  * src/models/bloodrequest.models.js (BloodRequest schema)
  * blood request / transfer controller (createBloodRequest,
    updateBloodRequestStatus, transferBloodUnit, confirmBloodDelivery)
  * ngo controller (registerBloodDonation, updateBloodDonationStatus)

Modelling conventions:
  * Mongo ObjectIds are natural numbers (`Id`).
  * JavaScript `Date` values are integers, milliseconds since the epoch
    (`Time`).  `date.setDate(date.getDate() + 42)` is modelled as adding
    42 * 86400000 ms, i.e. the calendar is DST-free (UTC), where the two
    agree exactly.
  * Optional / possibly-`undefined` JavaScript values are `Option`s.
    JavaScript truthiness on strings treats the empty string as false;
    `jsOrStr` and `truthyStr` reproduce that.
  * A controller handler is a pure function from its inputs plus the
    relevant database collections to `Except err result`.  Every `throw`
    in the source happens before the first `save()`, so an `error`
    result carries no writes.  On success the result records each
    `save()` performed on the blood unit / request documents, in order
    (`unitSaves`, `requestSaves`), so that atomicity claims about the
    sequence of persisted snapshots can be stated.
-/

namespace Blood

abbrev Id := Nat
abbrev Time := Int

/-- Milliseconds in one day. -/
def msPerDay : Int := 86400000

/-- Entity kinds a blood unit can be held by (schema enum
`[NGO, Center, Hospital]`). -/
inductive EntityType where
  | NGO
  | Center
  | Hospital
deriving DecidableEq, Repr

/-- Center discriminator (`DonationCamp` or `BloodBank`). -/
inductive CenterType where
  | DonationCamp
  | BloodBank
deriving DecidableEq, Repr

/-- Blood unit status enum from blood.models.js. -/
inductive UnitStatus where
  | processing
  | available
  | assigned
  | used
  | expired
  | discarded
deriving DecidableEq, Repr

/-- The eight ABO/Rh blood groups. -/
inductive BloodGroup where
  | Apos
  | Aneg
  | Bpos
  | Bneg
  | ABpos
  | ABneg
  | Opos
  | Oneg
deriving DecidableEq, Repr

/-- Blood request status enum from bloodrequest.models.js.  `EnRoute`
stands for the source string "En Route". -/
inductive BRStatus where
  | Pending
  | Accepted
  | Rejected
  | Processing
  | EnRoute
  | Delivered
  | Completed
deriving DecidableEq, Repr

/-- Urgency enum from bloodrequest.models.js. -/
inductive Urgency where
  | Emergency
  | Regular
  | FutureNeed
deriving DecidableEq, Repr

/-- The `currentLocation` nested object of the BloodDonation schema.  All
three paths are optional in the schema, hence `Option` fields; a field
that is `none` is absent from the stored BSON subdocument. -/
structure CurrentLocation where
  entityId : Option Id
  entityType : Option EntityType
  updatedAt : Option Time
deriving DecidableEq, Repr

/-- One entry of the embedded `transferHistory` array. -/
structure TransferEntry where
  fromId : Option Id
  fromType : Option EntityType
  toId : Id
  toType : EntityType
  transferDate : Time
  reason : String
deriving DecidableEq, Repr

/-- Health metrics recorded at donation time. -/
structure HealthMetrics where
  hemoglobin : Option Int
  bloodPressure : Option String
  pulse : Option Int
  temperature : Option Int
deriving DecidableEq, Repr

/-- Empty health metrics object (the `healthMetrics || {}` default). -/
def HealthMetrics.empty : HealthMetrics :=
  { hemoglobin := none, bloodPressure := none, pulse := none, temperature := none }

/-- A BloodDonation document (blood.models.js). -/
structure BloodUnit where
  id : Id
  userId : Id
  ngoId : Id
  centerId : Id
  centerType : CenterType
  bloodGroup : BloodGroup
  donationAmount : Nat
  donationDate : Time
  donationCenter : String
  healthMetrics : HealthMetrics
  status : UnitStatus
  expiryDate : Option Time
  transferHistory : List TransferEntry
  currentLocation : CurrentLocation
  notes : Option String
  lastVerifiedBy : Option (Id × Time)
deriving DecidableEq, Repr

/-- The `deliveryDetails` nested object of the BloodRequest schema. -/
structure DeliveryDetails where
  estimatedDeliveryTime : Option Time
  actualDeliveryTime : Option Time
  deliveredBy : Option String
  receivedBy : Option String
  confirmationCode : Option String
deriving DecidableEq, Repr

/-- A BloodRequest document (bloodrequest.models.js). -/
structure BloodRequestDoc where
  id : Id
  hospitalId : Id
  ngoId : Id
  bloodGroups : List (BloodGroup × Nat)
  urgencyLevel : Urgency
  status : BRStatus
  requestNotes : Option String
  deliveryDetails : DeliveryDetails
deriving DecidableEq, Repr

/-- The `bloodInventory` array entries of the Center schema. -/
structure InventoryEntry where
  bloodGroup : BloodGroup
  units : Nat
  availableUnits : Nat
  lastUpdated : Time
deriving DecidableEq, Repr

/-- A Center document, restricted to the fields the core operations
touch. -/
structure CenterDoc where
  id : Id
  ngoId : Id
  name : String
  type : CenterType
  bloodInventory : List InventoryEntry
deriving DecidableEq, Repr

/-- JavaScript `a || b` for an optional string `a`: the empty string is
falsy, so it also falls through to `b`. -/
def jsOrStr (a : Option String) (b : String) : String :=
  match a with
  | some s => if s.isEmpty then b else s
  | none => b

/-- JavaScript truthiness of an optional string. -/
def truthyStr : Option String → Bool
  | none => false
  | some s => !s.isEmpty

/-- The `bloodDonationSchema.methods.transferTo` method: push the ledger
entry built from the pre-call `currentLocation`, then overwrite
`currentLocation` with the destination, all on the in-memory document
(the caller then issues one `save()`). -/
def transferTo (u : BloodUnit) (toEntityId : Id) (toEntityType : EntityType)
    (reason : Option String) (now : Time) : BloodUnit :=
  { u with
    transferHistory := u.transferHistory ++
      [{ fromId := u.currentLocation.entityId
         fromType := u.currentLocation.entityType
         toId := toEntityId
         toType := toEntityType
         transferDate := now
         reason := jsOrStr reason "Transfer requested" }]
    currentLocation :=
      { entityId := some toEntityId
        entityType := some toEntityType
        updatedAt := some now } }

/-- Parse the request-body `toEntityType` string against the
`validEntityTypes` list of the controller. -/
def parseEntityType : String → Option EntityType
  | "NGO" => some EntityType.NGO
  | "Center" => some EntityType.Center
  | "Hospital" => some EntityType.Hospital
  | _ => none

/-- `BloodDonation.findOne on id and ngoId`: the donation with the given
id, provided it is owned by the calling NGO. -/
def findDonation (units : List BloodUnit) (dId ngoId : Id) : Option BloodUnit :=
  units.find? (fun u => decide (u.id = dId ∧ u.ngoId = ngoId))

/-- Persisting a modified request document: every stored document with
the same id is replaced by the new version. -/
def saveRequest (reqs : List BloodRequestDoc) (r : BloodRequestDoc) :
    List BloodRequestDoc :=
  reqs.map (fun x => if x.id = r.id then r else x)

/-- Error outcomes of the transferBloodUnit controller, one constructor
per `throw new ApiError` site, in source order. -/
inductive TransferErr where
  | missingFields
  | invalidEntityType
  | notFoundOrNotOwned
  | notAvailable (s : UnitStatus)
deriving DecidableEq, Repr

/-- HTTP status code attached to each transferBloodUnit error. -/
def transferErrCode : TransferErr → Nat
  | TransferErr.missingFields => 400
  | TransferErr.invalidEntityType => 400
  | TransferErr.notFoundOrNotOwned => 404
  | TransferErr.notAvailable _ => 400

/-- Successful outcome of transferBloodUnit: the unit document states
persisted by each `save()` on the donation, in order; likewise for the
request document; and the final states. -/
structure TransferSuccess where
  unitSaves : List BloodUnit
  requestSaves : List BloodRequestDoc
  unit : BloodUnit
  requests : List BloodRequestDoc
deriving DecidableEq, Repr

/-- The body of the transferBloodUnit controller after the donation has
been found and checked `available`: `transferTo` mutates and saves once;
a Hospital destination then sets status to `assigned` and saves a second
time, and, when a requestId names a `Pending` or `Accepted` request,
advances that request to `Processing` and saves it. -/
def performTransfer (u : BloodUnit) (toId : Id) (toTy : EntityType)
    (reason : Option String) (requestId : Option Id)
    (requests : List BloodRequestDoc) (now : Time) : TransferSuccess :=
  let u1 := transferTo u toId toTy reason now
  if toTy = EntityType.Hospital then
    let u2 := { u1 with status := UnitStatus.assigned }
    match requestId with
    | some rId =>
      match requests.find? (fun r => decide (r.id = rId)) with
      | some r =>
        if r.status = BRStatus.Pending ∨ r.status = BRStatus.Accepted then
          let r2 := { r with status := BRStatus.Processing }
          { unitSaves := [u1, u2], requestSaves := [r2], unit := u2,
            requests := saveRequest requests r2 }
        else
          { unitSaves := [u1, u2], requestSaves := [], unit := u2,
            requests := requests }
      | none =>
        { unitSaves := [u1, u2], requestSaves := [], unit := u2,
          requests := requests }
    | none =>
      { unitSaves := [u1, u2], requestSaves := [], unit := u2,
        requests := requests }
  else
    { unitSaves := [u1], requestSaves := [], unit := u1,
      requests := requests }

/-- The transferBloodUnit controller: validate presence of the three
required parameters, validate the entity-type string, find the donation
owned by the calling NGO, reject non-`available` units, then perform the
transfer.  Inventory recomputes on the source / destination centers
(which touch only Center documents) are modelled separately by
`updateBloodInventory`. -/
def transferBloodUnit (units : List BloodUnit) (requests : List BloodRequestDoc)
    (ngoId : Id) (donationId toEntityId : Option Id) (toEntityType : Option String)
    (reason : Option String) (requestId : Option Id) (now : Time) :
    Except TransferErr TransferSuccess :=
  match donationId, toEntityId, toEntityType with
  | some dId, some toId, some toTyStr =>
    match parseEntityType toTyStr with
    | none => Except.error TransferErr.invalidEntityType
    | some toTy =>
      match findDonation units dId ngoId with
      | none => Except.error TransferErr.notFoundOrNotOwned
      | some u =>
        if u.status = UnitStatus.available then
          Except.ok (performTransfer u toId toTy reason requestId requests now)
        else
          Except.error (TransferErr.notAvailable u.status)
  | _, _, _ => Except.error TransferErr.missingFields

/-- The `pre save` hook of blood.models.js: when `expiryDate` is unset,
set it to the donation date plus 42 days; when `currentLocation.entityId`
is unset, initialize the location to the collecting center. -/
def preSave (u : BloodUnit) (now : Time) : BloodUnit :=
  let u1 :=
    if u.expiryDate = none then
      { u with expiryDate := some (u.donationDate + 42 * msPerDay) }
    else u
  if u1.currentLocation.entityId = none then
    { u1 with currentLocation :=
        { entityId := some u1.centerId
          entityType := some EntityType.Center
          updatedAt := some now } }
  else u1

/-- Error outcomes of the registerBloodDonation controller, one
constructor per `throw new ApiError` site. -/
inductive RegisterErr where
  | missingFields
  | centerNotFoundOrNotOwned
deriving DecidableEq, Repr

/-- HTTP status code attached to each registerBloodDonation error. -/
def registerErrCode : RegisterErr → Nat
  | RegisterErr.missingFields => 400
  | RegisterErr.centerNotFoundOrNotOwned => 404

/-- `Center.findOne on id and ngoId`: the center with the given id,
provided it is owned by the calling NGO. -/
def findCenter (centers : List CenterDoc) (cId ngoId : Id) : Option CenterDoc :=
  centers.find? (fun c => decide (c.id = cId ∧ c.ngoId = ngoId))

/-- The registerBloodDonation controller (ngo controller): require
userId, centerId and bloodGroup; require a center owned by the calling
NGO; build the new BloodDonation document (status `processing`, location
at the center, no expiry date) and save it, which runs the `pre save`
hook.  `newId` stands for the ObjectId Mongo mints for the document.
Center statistics and inventory recomputes touch only Center / NGO
documents and are modelled separately. -/
def registerBloodDonation (centers : List CenterDoc) (ngoId : Id) (newId : Id)
    (userId centerId : Option Id) (bloodGroup : Option BloodGroup)
    (donationAmount : Option Nat) (donationDate : Option Time)
    (healthMetrics : Option HealthMetrics) (notes : Option String)
    (now : Time) : Except RegisterErr BloodUnit :=
  match userId, centerId, bloodGroup with
  | some uId, some cId, some g =>
    match findCenter centers cId ngoId with
    | none => Except.error RegisterErr.centerNotFoundOrNotOwned
    | some c =>
      Except.ok (preSave
        { id := newId
          userId := uId
          ngoId := ngoId
          centerId := cId
          centerType := c.type
          bloodGroup := g
          donationAmount := donationAmount.getD 450
          donationDate := donationDate.getD now
          donationCenter := c.name
          healthMetrics := healthMetrics.getD HealthMetrics.empty
          status := UnitStatus.processing
          expiryDate := none
          transferHistory := []
          currentLocation :=
            { entityId := some cId
              entityType := some EntityType.Center
              updatedAt := some now }
          notes := notes
          lastVerifiedBy := none } now)
  | _, _, _ => Except.error RegisterErr.missingFields

/-- The blood-unit snapshots persisted by a registerBloodDonation call:
the controller issues exactly one `bloodDonation.save()` on the newly
built document, so a successful call persists exactly the returned
record and a failed call (every throw precedes the save) persists
nothing. -/
def registerUnitSaves (res : Except RegisterErr BloodUnit) : List BloodUnit :=
  match res with
  | Except.ok v => [v]
  | Except.error _ => []

/-- Parse the request-body `status` string against the `validStatuses`
list of the updateBloodDonationStatus controller. -/
def parseUnitStatus : String → Option UnitStatus
  | "processing" => some UnitStatus.processing
  | "available" => some UnitStatus.available
  | "assigned" => some UnitStatus.assigned
  | "used" => some UnitStatus.used
  | "expired" => some UnitStatus.expired
  | "discarded" => some UnitStatus.discarded
  | _ => none

/-- Error outcomes of the updateBloodDonationStatus controller, one
constructor per `throw new ApiError` site, in source order. -/
inductive StatusErr where
  | missingFields
  | invalidStatus
  | notFoundOrNotOwned
deriving DecidableEq, Repr

/-- HTTP status code attached to each updateBloodDonationStatus
error. -/
def statusErrCode : StatusErr → Nat
  | StatusErr.missingFields => 400
  | StatusErr.invalidStatus => 400
  | StatusErr.notFoundOrNotOwned => 404

/-- Successful outcome of updateBloodDonationStatus: the unit snapshots
persisted by each `save()` on the donation, in order, and the final
record. -/
structure StatusUpdateSuccess where
  unitSaves : List BloodUnit
  unit : BloodUnit
deriving DecidableEq, Repr

/-- The updateBloodDonationStatus controller (ngo controller, SetStatus
of the spec): require donationId and a truthy status string, require it
to name one of the six statuses, find the donation owned by the calling
NGO (404 otherwise), then set the status, overwrite the notes when a
truthy notes value is supplied, stamp `lastVerifiedBy`, and persist the
record with a single `donation.save()`.  The inventory recompute that
follows touches only Center documents. -/
def updateBloodDonationStatus (units : List BloodUnit) (ngoId : Id)
    (donationId : Option Id) (statusStr : Option String)
    (notes : Option String) (now : Time) :
    Except StatusErr StatusUpdateSuccess :=
  match donationId, statusStr with
  | some dId, some st =>
    if st.isEmpty then Except.error StatusErr.missingFields
    else
      match parseUnitStatus st with
      | none => Except.error StatusErr.invalidStatus
      | some newSt =>
        match findDonation units dId ngoId with
        | none => Except.error StatusErr.notFoundOrNotOwned
        | some u =>
          let u2 : BloodUnit :=
            { u with
              status := newSt
              notes := if truthyStr notes then notes else u.notes
              lastVerifiedBy := some (ngoId, now) }
          Except.ok { unitSaves := [u2], unit := u2 }
  | _, _ => Except.error StatusErr.missingFields

/-- Ledger/holder consistency of a persisted blood-unit snapshot: when
the transfer ledger is nonempty, the `to` of its last entry is the
current holder. -/
def ledgerHolderOk (v : BloodUnit) : Prop :=
  ∀ e, v.transferHistory.getLast? = some e →
    v.currentLocation.entityId = some e.toId ∧
    v.currentLocation.entityType = some e.toType

/-- The fixed blood-group list iterated by updateBloodInventory. -/
def allBloodGroups : List BloodGroup :=
  [BloodGroup.Apos, BloodGroup.Aneg, BloodGroup.Bpos, BloodGroup.Bneg,
   BloodGroup.ABpos, BloodGroup.ABneg, BloodGroup.Opos, BloodGroup.Oneg]

/-- MongoDB semantics of the filter `currentLocation: (entityId: X)`
used by updateBloodInventory: the filter value is a document literal
whose only field is `entityId`, and matching a stored subdocument
against a document literal is exact BSON equality, field set included.
A stored `currentLocation` that also carries `entityType` or `updatedAt`
(both have schema defaults, so saved records always carry them) is not
equal to the literal and does not match. -/
def locationLiteralMatch (loc : CurrentLocation) (qEntityId : Id) : Bool :=
  decide (loc = { entityId := some qEntityId, entityType := none, updatedAt := none })

/-- The first `countDocuments` of updateBloodInventory: records with
this `centerId`, this `bloodGroup`, and `currentLocation` equal to the
literal `(entityId: centerId)`. -/
def countTotalAtCenter (units : List BloodUnit) (cId : Id) (g : BloodGroup) : Nat :=
  (units.filter (fun u =>
    decide (u.centerId = cId) && decide (u.bloodGroup = g) &&
    locationLiteralMatch u.currentLocation cId)).length

/-- The second `countDocuments` of updateBloodInventory: additionally
status `available` and `expiryDate` strictly in the future. -/
def countAvailableAtCenter (units : List BloodUnit) (cId : Id) (g : BloodGroup)
    (now : Time) : Nat :=
  (units.filter (fun u =>
    decide (u.centerId = cId) && decide (u.bloodGroup = g) &&
    decide (u.status = UnitStatus.available) &&
    (match u.expiryDate with
     | some e => decide (now < e)
     | none => false) &&
    locationLiteralMatch u.currentLocation cId)).length

/-- `this.bloodInventory.find` followed by either an in-place field
update of the first entry for the group or a push of a new entry. -/
def setInventoryEntry : List InventoryEntry → BloodGroup → Nat → Nat → Time →
    List InventoryEntry
  | [], g, total, avail, now =>
    [{ bloodGroup := g, units := total, availableUnits := avail, lastUpdated := now }]
  | e :: rest, g, total, avail, now =>
    if e.bloodGroup = g then
      { bloodGroup := g, units := total, availableUnits := avail,
        lastUpdated := now } :: rest
    else
      e :: setInventoryEntry rest g total avail now

/-- One iteration of the updateBloodInventory loop body for a group. -/
def inventoryStep (units : List BloodUnit) (cId : Id) (now : Time)
    (inv : List InventoryEntry) (g : BloodGroup) : List InventoryEntry :=
  setInventoryEntry inv g (countTotalAtCenter units cId g)
    (countAvailableAtCenter units cId g now) now

/-- `centerSchema.methods.updateBloodInventory`: for each of the eight
blood groups, count total and available donations at this center with
the two `countDocuments` filters, write them into the first matching
`bloodInventory` entry (or push a new one), then save the center. -/
def updateBloodInventory (c : CenterDoc) (units : List BloodUnit) (now : Time) :
    CenterDoc :=
  { c with bloodInventory :=
      allBloodGroups.foldl (inventoryStep units c.id now) c.bloodInventory }

/-- Stored `units` count for a group in a center inventory (first
matching entry, 0 when absent), used to read back recompute results. -/
def invUnits (inv : List InventoryEntry) (g : BloodGroup) : Nat :=
  match inv.find? (fun e => decide (e.bloodGroup = g)) with
  | some e => e.units
  | none => 0

/-- Stored `availableUnits` count for a group in a center inventory. -/
def invAvailable (inv : List InventoryEntry) (g : BloodGroup) : Nat :=
  match inv.find? (fun e => decide (e.bloodGroup = g)) with
  | some e => e.availableUnits
  | none => 0

/-- Modelled from the spec (section 4.2): the count the specification
asks Recompute to store as `units` — the number of BloodUnit records
whose `centerId` is the center and whose current location is the center,
for the given group.  This is the comparison definition for the
code-level `countTotalAtCenter`. -/
def specUnitsAtCenter (units : List BloodUnit) (cId : Id) (g : BloodGroup) : Nat :=
  (units.filter (fun u =>
    decide (u.centerId = cId) && decide (u.bloodGroup = g) &&
    decide (u.currentLocation.entityId = some cId))).length

/-- Modelled from the spec (section 4.2): the count the specification
asks Recompute to store as `availableUnits` — of the records counted by
`specUnitsAtCenter`, those with status `available` and unexpired. -/
def specAvailableAtCenter (units : List BloodUnit) (cId : Id) (g : BloodGroup)
    (now : Time) : Nat :=
  (units.filter (fun u =>
    decide (u.centerId = cId) && decide (u.bloodGroup = g) &&
    decide (u.status = UnitStatus.available) &&
    (match u.expiryDate with
     | some e => decide (now < e)
     | none => false) &&
    decide (u.currentLocation.entityId = some cId))).length

/-- The character JavaScript uses for one base-36 digit in
`Number.prototype.toString(36)`: 0-9 then a-z. -/
def base36Char (d : Fin 36) : Char :=
  if d.val < 10 then Char.ofNat (48 + d.val) else Char.ofNat (87 + d.val)

/-- The character list of `r.toString(36)` for `r = Math.random()`,
parametrized by the list `ds` of base-36 fractional digits that the
shortest-representation printer emits for `r` (empty exactly when
`r = 0`, in which case the output is "0"; otherwise "0." followed by
the digits, at least one, the last nonzero). -/
def randomChars36 (ds : List (Fin 36)) : List Char :=
  match ds with
  | [] => [Char.ofNat 48]
  | _ :: _ => Char.ofNat 48 :: Char.ofNat 46 :: ds.map base36Char

/-- `Math.random().toString(36).substring(2, 8).toUpperCase()` at the
character-list level: characters at indices 2 to 7 (fewer when the
string is shorter), upper-cased. -/
def code36 (ds : List (Fin 36)) : List Char :=
  (((randomChars36 ds).drop 2).take 6).map Char.toUpper

/-- The confirmation-code generator of confirmBloodDelivery as a
string. -/
def genConfirmationCode (ds : List (Fin 36)) : String :=
  String.mk (code36 ds)

/-- A character allowed in a confirmation code per the spec: an
upper-case alphanumeric (digit or upper-case letter). -/
def isUpperAlnum (c : Char) : Bool :=
  c.isDigit || c.isUpper

/-- Error outcomes of the confirmBloodDelivery controller, one
constructor per `throw new ApiError` site. -/
inductive ConfirmErr where
  | missingFields
  | notFoundOrNotInDelivery
deriving DecidableEq, Repr

/-- HTTP status code attached to each confirmBloodDelivery error. -/
def confirmErrCode : ConfirmErr → Nat
  | ConfirmErr.missingFields => 400
  | ConfirmErr.notFoundOrNotInDelivery => 404

/-- The `findOne` filter of confirmBloodDelivery: same id, owned by the
calling hospital, and status exactly `En Route`. -/
def confirmQuery (rId hospitalId : Id) (r : BloodRequestDoc) : Bool :=
  decide (r.id = rId ∧ r.hospitalId = hospitalId ∧ r.status = BRStatus.EnRoute)

/-- Appending the received note to the request notes, reproducing the
conditional template of the source (existing empty notes are falsy). -/
def appendReceivedNote (prior : Option String) (n : String) : String :=
  match prior with
  | some s => if s.isEmpty then "Received: " ++ n else s ++ "\n\nReceived: " ++ n
  | none => "Received: " ++ n

/-- The confirmBloodDelivery controller: require requestId and a truthy
receiver name; find the request owned by the calling hospital with
status `En Route` (404 otherwise); set status `Delivered`, stamp the
actual delivery time, record the receiver, and store the supplied
confirmation code or, when it is absent or empty, a generated one; then
save.  `randDigits` are the base-36 fractional digits of the
`Math.random()` draw. -/
def confirmBloodDelivery (requests : List BloodRequestDoc) (hospitalId : Id)
    (requestId : Option Id) (receivedBy : Option String) (notes : Option String)
    (confirmationCode : Option String) (randDigits : List (Fin 36)) (now : Time) :
    Except ConfirmErr (BloodRequestDoc × List BloodRequestDoc) :=
  match requestId, receivedBy with
  | some rId, some recv =>
    if recv.isEmpty then Except.error ConfirmErr.missingFields
    else
      match requests.find? (confirmQuery rId hospitalId) with
      | none => Except.error ConfirmErr.notFoundOrNotInDelivery
      | some r =>
        let r2 : BloodRequestDoc :=
          { r with
            status := BRStatus.Delivered
            deliveryDetails :=
              { r.deliveryDetails with
                actualDeliveryTime := some now
                receivedBy := some recv
                confirmationCode :=
                  some (jsOrStr confirmationCode (genConfirmationCode randDigits)) }
            requestNotes :=
              if truthyStr notes then
                some (appendReceivedNote r.requestNotes (notes.getD ""))
              else r.requestNotes }
        Except.ok (r2, saveRequest requests r2)
  | _, _ => Except.error ConfirmErr.missingFields

/-- Extract the sequence of persisted blood-unit snapshots of a transfer
outcome; an error outcome persisted nothing. -/
def transferUnitSaves : Except TransferErr TransferSuccess → List BloodUnit
  | Except.ok s => s.unitSaves
  | Except.error _ => []

/-- Extract the confirmation code stored by a confirmBloodDelivery
outcome. -/
def confirmStoredCode :
    Except ConfirmErr (BloodRequestDoc × List BloodRequestDoc) → Option String
  | Except.ok pr => pr.1.deliveryDetails.confirmationCode
  | Except.error _ => none

/-- Sample available blood unit used to instantiate the theorems:
collected by NGO 1 at center 4, group O-, located at its center. -/
def sampleUnit (st : UnitStatus) : BloodUnit :=
  { id := 10
    userId := 3
    ngoId := 1
    centerId := 4
    centerType := CenterType.BloodBank
    bloodGroup := BloodGroup.Oneg
    donationAmount := 450
    donationDate := 0
    donationCenter := "City Blood Bank"
    healthMetrics := HealthMetrics.empty
    status := st
    expiryDate := some (42 * msPerDay)
    transferHistory := []
    currentLocation :=
      { entityId := some 4
        entityType := some EntityType.Center
        updatedAt := some 0 }
    notes := none
    lastVerifiedBy := none }

/-- Sample blood request from hospital 1 to NGO 2. -/
def sampleRequest (st : BRStatus) : BloodRequestDoc :=
  { id := 5
    hospitalId := 1
    ngoId := 2
    bloodGroups := [(BloodGroup.Apos, 2)]
    urgencyLevel := Urgency.Regular
    status := st
    requestNotes := none
    deliveryDetails :=
      { estimatedDeliveryTime := none
        actualDeliveryTime := none
        deliveredBy := none
        receivedBy := none
        confirmationCode := none } }

/-- Sample center with id 4 owned by the given NGO. -/
def sampleCenter (ngo : Id) : CenterDoc :=
  { id := 4
    ngoId := ngo
    name := "City Blood Bank"
    type := CenterType.BloodBank
    bloodInventory := [] }

theorem performTransfer_unit (u : BloodUnit) (toId : Id) (toTy : EntityType)
    (reason : Option String) (requestId : Option Id)
    (requests : List BloodRequestDoc) (now : Time) :
    (performTransfer u toId toTy reason requestId requests now).unit =
      (if toTy = EntityType.Hospital then
        { transferTo u toId toTy reason now with status := UnitStatus.assigned }
      else transferTo u toId toTy reason now) := by
  unfold performTransfer
  by_cases hh : toTy = EntityType.Hospital
  · simp only [if_pos hh]
    cases requestId with
    | none => rfl
    | some rId =>
      cases hf : requests.find? (fun r => decide (r.id = rId)) with
      | none => simp only [hf]
      | some r =>
        by_cases hs : r.status = BRStatus.Pending ∨ r.status = BRStatus.Accepted
        · simp only [hf, if_pos hs]
        · simp only [hf, if_neg hs]
  · simp only [if_neg hh]

theorem performTransfer_saves (u : BloodUnit) (toId : Id) (toTy : EntityType)
    (reason : Option String) (requestId : Option Id)
    (requests : List BloodRequestDoc) (now : Time) :
    (performTransfer u toId toTy reason requestId requests now).unitSaves =
      (if toTy = EntityType.Hospital then
        [transferTo u toId toTy reason now,
         { transferTo u toId toTy reason now with status := UnitStatus.assigned }]
      else [transferTo u toId toTy reason now]) := by
  unfold performTransfer
  by_cases hh : toTy = EntityType.Hospital
  · simp only [if_pos hh]
    cases requestId with
    | none => rfl
    | some rId =>
      cases hf : requests.find? (fun r => decide (r.id = rId)) with
      | none => simp only [hf]
      | some r =>
        by_cases hs : r.status = BRStatus.Pending ∨ r.status = BRStatus.Accepted
        · simp only [hf, if_pos hs]
        · simp only [hf, if_neg hs]
  · simp only [if_neg hh]

theorem performTransfer_requests_hospital (u : BloodUnit) (toId : Id)
    (reason : Option String) (rId : Id) (requests : List BloodRequestDoc)
    (now : Time) (r : BloodRequestDoc)
    (hf : requests.find? (fun x => decide (x.id = rId)) = some r)
    (hs : r.status = BRStatus.Pending ∨ r.status = BRStatus.Accepted) :
    (performTransfer u toId EntityType.Hospital reason (some rId) requests
        now).requests =
      saveRequest requests { r with status := BRStatus.Processing } := by
  unfold performTransfer
  simp [hf, hs]

theorem find_saveRequest (reqs : List BloodRequestDoc) (r2 : BloodRequestDoc)
    (rId : Id) (hid : r2.id = rId)
    (hex : (reqs.find? (fun x => decide (x.id = rId))).isSome = true) :
    (saveRequest reqs r2).find? (fun x => decide (x.id = rId)) = some r2 := by
  subst hid
  induction reqs with
  | nil => simp [List.find?] at hex
  | cons a l ih =>
    by_cases ha : a.id = r2.id
    · simp [saveRequest, List.find?, ha]
    · have hmap : saveRequest (a :: l) r2 = a :: saveRequest l r2 := by
        simp [saveRequest, ha]
      rw [hmap, List.find?_cons_of_neg _ (by simp [ha])]
      rw [List.find?_cons_of_neg _ (by simp [ha])] at hex
      exact ih hex

/-- C1: after any successful Transfer, the last entry of the transfer
ledger has `to` equal to the supplied destination entity id and kind,
which is the unit's new current holder, and `from` equal to the holder
immediately before the call; and the new ledger is exactly the old
ledger with that one entry appended, so every prior entry is preserved
unchanged, in order. -/
theorem transfer_ledger_append (units : List BloodUnit)
    (requests : List BloodRequestDoc) (ngoId dId toId : Id) (toTyStr : String)
    (reason : Option String) (requestId : Option Id) (now : Time)
    (u : BloodUnit) (toTy : EntityType) (s : TransferSuccess)
    (hparse : parseEntityType toTyStr = some toTy)
    (hfind : findDonation units dId ngoId = some u)
    (hok : transferBloodUnit units requests ngoId (some dId) (some toId)
      (some toTyStr) reason requestId now = Except.ok s) :
    s.unit.transferHistory = u.transferHistory ++
      [{ fromId := u.currentLocation.entityId
         fromType := u.currentLocation.entityType
         toId := toId
         toType := toTy
         transferDate := now
         reason := jsOrStr reason "Transfer requested" }] ∧
    s.unit.currentLocation.entityId = some toId ∧
    s.unit.currentLocation.entityType = some toTy := by
  simp only [transferBloodUnit, hparse, hfind] at hok
  by_cases hav : u.status = UnitStatus.available
  · rw [if_pos hav] at hok
    have hs : performTransfer u toId toTy reason requestId requests now = s :=
      by injection hok
    subst hs
    rw [performTransfer_unit]
    by_cases hh : toTy = EntityType.Hospital
    · rw [if_pos hh]
      exact ⟨rfl, rfl, rfl⟩
    · rw [if_neg hh]
      exact ⟨rfl, rfl, rfl⟩
  · rw [if_neg hav] at hok
    cases hok

/-- C1 witness at a concrete input: transferring the sample available
unit from its center to center 7 puts holder 7 into the ledger tail and
the current location. -/
theorem transfer_ledger_append_witness :
    (performTransfer (sampleUnit UnitStatus.available) 7 EntityType.Center
        none none [] 5).unit.currentLocation.entityId = some 7 :=
  (transfer_ledger_append [sampleUnit UnitStatus.available] [] 1 10 7 "Center"
    none none 5 (sampleUnit UnitStatus.available) EntityType.Center _
    rfl rfl rfl).2.1

/-- C2: a Transfer call that reaches a unit whose status is not
`available` is rejected with the invalid-state error carrying HTTP 400
(the throw happens before any save, so an error outcome persists
nothing), and a Transfer can succeed only when the unit's status was
`available` at the start of the call. -/
theorem transfer_requires_available (units : List BloodUnit)
    (requests : List BloodRequestDoc) (ngoId dId toId : Id) (toTyStr : String)
    (reason : Option String) (requestId : Option Id) (now : Time)
    (u : BloodUnit) (toTy : EntityType)
    (hparse : parseEntityType toTyStr = some toTy)
    (hfind : findDonation units dId ngoId = some u) :
    (u.status ≠ UnitStatus.available →
      transferBloodUnit units requests ngoId (some dId) (some toId)
        (some toTyStr) reason requestId now =
        Except.error (TransferErr.notAvailable u.status) ∧
      transferErrCode (TransferErr.notAvailable u.status) = 400) ∧
    (∀ s, transferBloodUnit units requests ngoId (some dId) (some toId)
        (some toTyStr) reason requestId now = Except.ok s →
      u.status = UnitStatus.available) := by
  simp only [transferBloodUnit, hparse, hfind]
  constructor
  · intro hne
    rw [if_neg hne]
    exact ⟨rfl, rfl⟩
  · intro s hok
    by_cases hav : u.status = UnitStatus.available
    · exact hav
    · rw [if_neg hav] at hok
      cases hok

/-- C2 witness at a concrete input: the sample unit in status
`processing` cannot be transferred; the call returns the 400
invalid-state error. -/
theorem transfer_requires_available_witness :
    transferBloodUnit [sampleUnit UnitStatus.processing] [] 1 (some 10) (some 7)
      (some "Hospital") none none 5 =
      Except.error (TransferErr.notAvailable UnitStatus.processing) :=
  ((transfer_requires_available [sampleUnit UnitStatus.processing] [] 1 10 7
    "Hospital" none none 5 (sampleUnit UnitStatus.processing)
    EntityType.Hospital rfl rfl).1 (by decide)).1

/-- C3: after a successful Transfer whose destination kind is Hospital
the unit's status is `assigned`; and when a requestId was supplied
naming a request whose status is `Pending` or `Accepted`, that request
is stored with status `Processing` by the same call. -/
theorem transfer_to_hospital_binding (units : List BloodUnit)
    (requests : List BloodRequestDoc) (ngoId dId toId : Id) (toTyStr : String)
    (reason : Option String) (requestId : Option Id) (now : Time)
    (u : BloodUnit) (s : TransferSuccess)
    (hparse : parseEntityType toTyStr = some EntityType.Hospital)
    (hfind : findDonation units dId ngoId = some u)
    (hok : transferBloodUnit units requests ngoId (some dId) (some toId)
      (some toTyStr) reason requestId now = Except.ok s) :
    s.unit.status = UnitStatus.assigned ∧
    (∀ rId r, requestId = some rId →
      requests.find? (fun x => decide (x.id = rId)) = some r →
      (r.status = BRStatus.Pending ∨ r.status = BRStatus.Accepted) →
      s.requests.find? (fun x => decide (x.id = rId)) =
        some { r with status := BRStatus.Processing }) := by
  simp only [transferBloodUnit, hparse, hfind] at hok
  by_cases hav : u.status = UnitStatus.available
  · rw [if_pos hav] at hok
    have hs : performTransfer u toId EntityType.Hospital reason requestId
        requests now = s := by injection hok
    subst hs
    constructor
    · rw [performTransfer_unit, if_pos rfl]
    · intro rId r hreq hf hst
      subst hreq
      rw [performTransfer_requests_hospital u toId reason rId requests now r hf hst]
      refine find_saveRequest requests { r with status := BRStatus.Processing }
        rId ?_ ?_
      · have := List.find?_some hf
        simpa using this
      · rw [hf]
        rfl
  · rw [if_neg hav] at hok
    cases hok

/-- C3 witness at a concrete input: the sample available unit
transferred to hospital 7 against the sample `Pending` request becomes
`assigned` and the request is stored as `Processing`. -/
theorem transfer_to_hospital_binding_witness :
    (performTransfer (sampleUnit UnitStatus.available) 7 EntityType.Hospital
        none (some 5) [sampleRequest BRStatus.Pending] 5).unit.status =
      UnitStatus.assigned ∧
    (performTransfer (sampleUnit UnitStatus.available) 7 EntityType.Hospital
        none (some 5) [sampleRequest BRStatus.Pending] 5).requests.find?
        (fun x => decide (x.id = 5)) =
      some { sampleRequest BRStatus.Pending with status := BRStatus.Processing } := by
  have h := transfer_to_hospital_binding [sampleUnit UnitStatus.available]
    [sampleRequest BRStatus.Pending] 1 10 7 "Hospital" none (some 5) 5
    (sampleUnit UnitStatus.available) _ rfl rfl rfl
  exact ⟨h.1, h.2 5 (sampleRequest BRStatus.Pending) rfl rfl (Or.inl rfl)⟩

/-- C10: a successful Transfer changes exactly the transfer ledger, the
current holder, and — only when the destination kind is Hospital — the
status; every other field of the unit is unchanged, and for an NGO or
Center destination the status is exactly the pre-call status. -/
theorem transfer_frame (units : List BloodUnit)
    (requests : List BloodRequestDoc) (ngoId dId toId : Id) (toTyStr : String)
    (reason : Option String) (requestId : Option Id) (now : Time)
    (u : BloodUnit) (toTy : EntityType) (s : TransferSuccess)
    (hparse : parseEntityType toTyStr = some toTy)
    (hfind : findDonation units dId ngoId = some u)
    (hok : transferBloodUnit units requests ngoId (some dId) (some toId)
      (some toTyStr) reason requestId now = Except.ok s) :
    s.unit = { u with
      transferHistory := u.transferHistory ++
        [{ fromId := u.currentLocation.entityId
           fromType := u.currentLocation.entityType
           toId := toId
           toType := toTy
           transferDate := now
           reason := jsOrStr reason "Transfer requested" }]
      currentLocation :=
        { entityId := some toId
          entityType := some toTy
          updatedAt := some now }
      status :=
        if toTy = EntityType.Hospital then UnitStatus.assigned else u.status } := by
  simp only [transferBloodUnit, hparse, hfind] at hok
  by_cases hav : u.status = UnitStatus.available
  · rw [if_pos hav] at hok
    have hs : performTransfer u toId toTy reason requestId requests now = s :=
      by injection hok
    subst hs
    rw [performTransfer_unit]
    by_cases hh : toTy = EntityType.Hospital
    · rw [if_pos hh, if_pos hh]
      rfl
    · rw [if_neg hh, if_neg hh]
      rfl
  · rw [if_neg hav] at hok
    cases hok

/-- C10 witness at a concrete input: transferring the sample available
unit to center 7 leaves its status `available`. -/
theorem transfer_frame_witness :
    (performTransfer (sampleUnit UnitStatus.available) 7 EntityType.Center
        none none [] 5).unit.status = UnitStatus.available := by
  have h := transfer_frame [sampleUnit UnitStatus.available] [] 1 10 7 "Center"
    none none 5 (sampleUnit UnitStatus.available) EntityType.Center _
    rfl rfl rfl
  rw [h]
  rfl

/-- C5 counterexample: the claim says a Transfer applies the ledger
append, the holder update, and any status change to the same record
before a single atomic save, so that no reachable persisted state mixes
them inconsistently.  On this concrete Hospital transfer the controller
performs two unit saves, and the first persisted snapshot already has
the Hospital as current holder and as the `to` of the last ledger entry
while its status is still `available` — the combination the claim rules
out, persisted between the first and second save. -/
theorem transfer_single_save_counterexample :
    (transferUnitSaves (transferBloodUnit [sampleUnit UnitStatus.available] []
        1 (some 10) (some 7) (some "Hospital") none none 5)).length = 2 ∧
    ((transferUnitSaves (transferBloodUnit [sampleUnit UnitStatus.available] []
        1 (some 10) (some 7) (some "Hospital") none none 5)).head?.map
      BloodUnit.status) = some UnitStatus.available ∧
    ((transferUnitSaves (transferBloodUnit [sampleUnit UnitStatus.available] []
        1 (some 10) (some 7) (some "Hospital") none none 5)).head?.map
      (fun v => v.currentLocation.entityType)) = some (some EntityType.Hospital) ∧
    ((transferUnitSaves (transferBloodUnit [sampleUnit UnitStatus.available] []
        1 (some 10) (some 7) (some "Hospital") none none 5)).head?.map
      (fun v => v.transferHistory.getLast?.map TransferEntry.toType)) =
      some (some EntityType.Hospital) :=
  ⟨rfl, rfl, rfl, rfl⟩

theorem ledgerHolderOk_of_nil (v : BloodUnit) (h : v.transferHistory = []) :
    ledgerHolderOk v := by
  intro e he
  rw [h] at he
  simp at he

/-- C5 as amended: every blood-unit mutation persists only
ledger/holder-consistent snapshots and each in-memory update is written
by single-document saves — Register persists exactly one snapshot (with
an empty ledger), SetStatus persists exactly one snapshot that keeps
the ledger and the holder unchanged (so consistency is preserved), and
Transfer applies the ledger append and the holder update to the same
record before one atomic save, an NGO or Center transfer being a single
save; however, for a Hospital destination the status change to
`assigned` is written by a second, separate save, the first persisted
snapshot differing from the final record only in still carrying the
pre-call status. -/
theorem blood_mutation_save_atomicity :
    (∀ (centers : List CenterDoc) (ngoId newId : Id)
      (userId centerId : Option Id) (bloodGroup : Option BloodGroup)
      (donationAmount : Option Nat) (donationDate : Option Time)
      (healthMetrics : Option HealthMetrics) (notes : Option String)
      (now : Time) (v : BloodUnit),
      registerBloodDonation centers ngoId newId userId centerId bloodGroup
        donationAmount donationDate healthMetrics notes now = Except.ok v →
      registerUnitSaves (registerBloodDonation centers ngoId newId userId
        centerId bloodGroup donationAmount donationDate healthMetrics notes
        now) = [v] ∧
      v.transferHistory = [] ∧ ledgerHolderOk v) ∧
    (∀ (units : List BloodUnit) (ngoId dId : Id) (st : String)
      (notes : Option String) (now : Time) (u : BloodUnit)
      (s : StatusUpdateSuccess),
      findDonation units dId ngoId = some u →
      updateBloodDonationStatus units ngoId (some dId) (some st) notes now =
        Except.ok s →
      s.unitSaves = [s.unit] ∧
      s.unit.transferHistory = u.transferHistory ∧
      s.unit.currentLocation = u.currentLocation ∧
      (ledgerHolderOk u → ledgerHolderOk s.unit)) ∧
    (∀ (units : List BloodUnit) (requests : List BloodRequestDoc)
      (ngoId dId toId : Id) (toTyStr : String) (reason : Option String)
      (requestId : Option Id) (now : Time) (u : BloodUnit)
      (toTy : EntityType) (s : TransferSuccess),
      parseEntityType toTyStr = some toTy →
      findDonation units dId ngoId = some u →
      transferBloodUnit units requests ngoId (some dId) (some toId)
        (some toTyStr) reason requestId now = Except.ok s →
      (∀ v ∈ s.unitSaves, ledgerHolderOk v) ∧
      (toTy ≠ EntityType.Hospital → s.unitSaves = [s.unit]) ∧
      (toTy = EntityType.Hospital →
        s.unitSaves = [{ s.unit with status := u.status }, s.unit])) := by
  refine ⟨?_, ?_, ?_⟩
  · intro centers ngoId newId userId centerId bloodGroup donationAmount
      donationDate healthMetrics notes now v hok
    have hsv : registerUnitSaves (registerBloodDonation centers ngoId newId
        userId centerId bloodGroup donationAmount donationDate healthMetrics
        notes now) = [v] := by
      rw [hok]
      rfl
    cases userId with
    | none => cases hok
    | some uId =>
      cases centerId with
      | none => cases hok
      | some cId =>
        cases bloodGroup with
        | none => cases hok
        | some g =>
          simp only [registerBloodDonation] at hok
          cases hfc : findCenter centers cId ngoId with
          | none =>
            rw [hfc] at hok
            cases hok
          | some c =>
            rw [hfc] at hok
            injection hok with hok
            subst hok
            exact ⟨hsv, rfl, ledgerHolderOk_of_nil _ rfl⟩
  · intro units ngoId dId st notes now u s hfind hok
    simp only [updateBloodDonationStatus, hfind] at hok
    by_cases hemp : st.isEmpty = true
    · rw [if_pos hemp] at hok
      cases hok
    · rw [if_neg hemp] at hok
      cases hp : parseUnitStatus st with
      | none =>
        rw [hp] at hok
        cases hok
      | some newSt =>
        rw [hp] at hok
        injection hok with hok
        subst hok
        refine ⟨rfl, rfl, rfl, ?_⟩
        intro h
        exact h
  · intro units requests ngoId dId toId toTyStr reason requestId now u toTy s
      hparse hfind hok
    simp only [transferBloodUnit, hparse, hfind] at hok
    by_cases hav : u.status = UnitStatus.available
    · rw [if_pos hav] at hok
      have hs : performTransfer u toId toTy reason requestId requests now = s :=
        by injection hok
      subst hs
      rw [performTransfer_saves, performTransfer_unit]
      have hlast : (transferTo u toId toTy reason now).transferHistory.getLast? =
          some { fromId := u.currentLocation.entityId
                 fromType := u.currentLocation.entityType
                 toId := toId
                 toType := toTy
                 transferDate := now
                 reason := jsOrStr reason "Transfer requested" } := by
        simp [transferTo]
      by_cases hh : toTy = EntityType.Hospital
      · rw [if_pos hh, if_pos hh]
        refine ⟨?_, fun hne => absurd hh hne, fun _ => ?_⟩
        · intro v hv e he
          rcases List.mem_pair.mp hv with hv1 | hv2
          · subst hv1
            rw [hlast] at he
            injection he with he
            subst he
            exact ⟨rfl, rfl⟩
          · subst hv2
            rw [show ({ transferTo u toId toTy reason now with
                status := UnitStatus.assigned } : BloodUnit).transferHistory.getLast? =
                (transferTo u toId toTy reason now).transferHistory.getLast? from rfl,
              hlast] at he
            injection he with he
            subst he
            exact ⟨rfl, rfl⟩
        · rfl
      · rw [if_neg hh, if_neg hh]
        refine ⟨?_, fun _ => rfl, fun habs => absurd habs hh⟩
        intro v hv e he
        rw [List.mem_singleton] at hv
        subst hv
        rw [hlast] at he
        injection he with he
        subst he
        exact ⟨rfl, rfl⟩
    · rw [if_neg hav] at hok
      cases hok

/-- C5 witness at concrete inputs, one per mutation: registering at the
sample center persists the one returned record; setting the sample
processing unit to `available` is a single save; and the Hospital
transfer of the sample available unit persists exactly the intermediate
snapshot (final record with the old `available` status) followed by the
final record. -/
theorem blood_mutation_save_atomicity_witness :
    (∃ v, registerBloodDonation [sampleCenter 1] 1 99 (some 3) (some 4)
        (some BloodGroup.Apos) none none none none 1000 = Except.ok v ∧
      registerUnitSaves (registerBloodDonation [sampleCenter 1] 1 99 (some 3)
        (some 4) (some BloodGroup.Apos) none none none none 1000) = [v]) ∧
    (∃ s, updateBloodDonationStatus [sampleUnit UnitStatus.processing] 1
        (some 10) (some "available") none 5 = Except.ok s ∧
      s.unitSaves = [s.unit]) ∧
    (performTransfer (sampleUnit UnitStatus.available) 7 EntityType.Hospital
        none none [] 5).unitSaves =
      [{ (performTransfer (sampleUnit UnitStatus.available) 7
            EntityType.Hospital none none [] 5).unit with
          status := UnitStatus.available },
        (performTransfer (sampleUnit UnitStatus.available) 7
          EntityType.Hospital none none [] 5).unit] := by
  refine ⟨⟨_, rfl, ?_⟩, ⟨_, rfl, ?_⟩, ?_⟩
  · exact (blood_mutation_save_atomicity.1 [sampleCenter 1] 1 99 (some 3)
      (some 4) (some BloodGroup.Apos) none none none none 1000 _ rfl).1
  · exact (blood_mutation_save_atomicity.2.1 [sampleUnit UnitStatus.processing]
      1 10 "available" none 5 (sampleUnit UnitStatus.processing) _ rfl rfl).1
  · exact (blood_mutation_save_atomicity.2.2 [sampleUnit UnitStatus.available]
      [] 1 10 7 "Hospital" none none 5 (sampleUnit UnitStatus.available)
      EntityType.Hospital _ rfl rfl rfl).2.2 rfl

/-- C6: every blood unit created by registerBloodDonation has its expiry
date equal to its collection (donation) date plus exactly 42 days: the
controller stores no expiry date and the pre-save hook fills it in from
the donation date. -/
theorem register_expiry_42_days (centers : List CenterDoc)
    (ngoId newId : Id) (userId centerId : Option Id)
    (bloodGroup : Option BloodGroup) (donationAmount : Option Nat)
    (donationDate : Option Time) (healthMetrics : Option HealthMetrics)
    (notes : Option String) (now : Time) (v : BloodUnit)
    (hok : registerBloodDonation centers ngoId newId userId centerId bloodGroup
      donationAmount donationDate healthMetrics notes now = Except.ok v) :
    v.expiryDate = some (v.donationDate + 42 * msPerDay) := by
  cases userId with
  | none => cases hok
  | some uId =>
    cases centerId with
    | none => cases hok
    | some cId =>
      cases bloodGroup with
      | none => cases hok
      | some g =>
        simp only [registerBloodDonation] at hok
        cases hfc : findCenter centers cId ngoId with
        | none =>
          rw [hfc] at hok
          cases hok
        | some c =>
          rw [hfc] at hok
          injection hok with hok
          subst hok
          rfl

/-- C6 witness at a concrete input: registering a donation at the
sample center yields a unit whose expiry date is its donation date plus
42 days. -/
theorem register_expiry_42_days_witness :
    ∃ v, registerBloodDonation [sampleCenter 1] 1 99 (some 3) (some 4)
        (some BloodGroup.Apos) none none none none 1000 = Except.ok v ∧
      v.expiryDate = some (v.donationDate + 42 * msPerDay) :=
  ⟨_, rfl, register_expiry_42_days [sampleCenter 1] 1 99 (some 3) (some 4)
    (some BloodGroup.Apos) none none none none 1000 _ rfl⟩

/-- C7 counterexample: the claim says Register fails with a
ValidationError (HTTP 400) when the named center is not owned by the
calling NGO.  On this concrete call (all three required fields present,
center 4 owned by NGO 2, caller NGO 1) the controller instead throws
the 404 not-found error, and 404 is not 400. -/
theorem register_not_owned_counterexample :
    registerBloodDonation [sampleCenter 2] 1 99 (some 3) (some 4)
      (some BloodGroup.Apos) none none none none 1000 =
      Except.error RegisterErr.centerNotFoundOrNotOwned ∧
    registerErrCode RegisterErr.centerNotFoundOrNotOwned = 404 ∧
    (404 : Nat) ≠ 400 :=
  ⟨rfl, rfl, by decide⟩

/-- C7 as amended: Register fails with a ValidationError (HTTP 400) when
the donor id, center id, or blood group is missing; it fails with a
NotFoundError (HTTP 404) when the named center does not exist or is not
owned by the calling NGO; and a unit is created only when all three are
present and the center belongs to the caller. -/
theorem register_validation (centers : List CenterDoc) (ngoId newId : Id)
    (userId centerId : Option Id) (bloodGroup : Option BloodGroup)
    (donationAmount : Option Nat) (donationDate : Option Time)
    (healthMetrics : Option HealthMetrics) (notes : Option String)
    (now : Time) :
    ((userId = none ∨ centerId = none ∨ bloodGroup = none) →
      registerBloodDonation centers ngoId newId userId centerId bloodGroup
        donationAmount donationDate healthMetrics notes now =
        Except.error RegisterErr.missingFields ∧
      registerErrCode RegisterErr.missingFields = 400) ∧
    (∀ uId cId g, userId = some uId → centerId = some cId →
      bloodGroup = some g → findCenter centers cId ngoId = none →
      registerBloodDonation centers ngoId newId userId centerId bloodGroup
        donationAmount donationDate healthMetrics notes now =
        Except.error RegisterErr.centerNotFoundOrNotOwned ∧
      registerErrCode RegisterErr.centerNotFoundOrNotOwned = 404) ∧
    (∀ v, registerBloodDonation centers ngoId newId userId centerId bloodGroup
        donationAmount donationDate healthMetrics notes now = Except.ok v →
      (∃ uId, userId = some uId) ∧ (∃ g, bloodGroup = some g) ∧
      ∃ cId c, centerId = some cId ∧ findCenter centers cId ngoId = some c) := by
  refine ⟨?_, ?_, ?_⟩
  · rintro (h | h | h) <;> subst h
    · refine ⟨?_, rfl⟩
      rfl
    · refine ⟨?_, rfl⟩
      cases userId <;> rfl
    · refine ⟨?_, rfl⟩
      cases userId <;> cases centerId <;> rfl
  · intro uId cId g h1 h2 h3 hfc
    subst h1
    subst h2
    subst h3
    refine ⟨?_, rfl⟩
    simp only [registerBloodDonation, hfc]
  · intro v hok
    cases userId with
    | none => cases hok
    | some uId =>
      cases centerId with
      | none => cases hok
      | some cId =>
        cases bloodGroup with
        | none => cases hok
        | some g =>
          refine ⟨⟨uId, rfl⟩, ⟨g, rfl⟩, cId, ?_⟩
          simp only [registerBloodDonation] at hok
          cases hfc : findCenter centers cId ngoId with
          | none =>
            rw [hfc] at hok
            cases hok
          | some c => exact ⟨c, rfl, rfl⟩

/-- C7 witness at a concrete input: a call without a donor id fails with
the 400 missing-fields error. -/
theorem register_validation_witness :
    registerBloodDonation [sampleCenter 1] 1 99 none (some 4)
      (some BloodGroup.Apos) none none none none 1000 =
      Except.error RegisterErr.missingFields :=
  ((register_validation [sampleCenter 1] 1 99 none (some 4)
    (some BloodGroup.Apos) none none none none 1000).1 (Or.inl rfl)).1

/-- C8: a ConfirmDelivery call (with the mandatory receiver name
supplied) fails with the 404 not-found error whenever no stored request
has the given id, belongs to the calling hospital, and has status
exactly `En Route`; and on success the confirmed request has status
`Delivered` and was found satisfying all three conditions. -/
theorem confirm_delivery_preconditions (requests : List BloodRequestDoc)
    (hospitalId rId : Id) (recv : String) (notes ccode : Option String)
    (ds : List (Fin 36)) (now : Time)
    (hrecv : recv.isEmpty = false) :
    ((∀ r ∈ requests, confirmQuery rId hospitalId r = false) →
      confirmBloodDelivery requests hospitalId (some rId) (some recv) notes
        ccode ds now = Except.error ConfirmErr.notFoundOrNotInDelivery ∧
      confirmErrCode ConfirmErr.notFoundOrNotInDelivery = 404) ∧
    (∀ pr, confirmBloodDelivery requests hospitalId (some rId) (some recv)
        notes ccode ds now = Except.ok pr →
      pr.1.status = BRStatus.Delivered ∧
      ∃ r, requests.find? (confirmQuery rId hospitalId) = some r ∧
        r.hospitalId = hospitalId ∧ r.status = BRStatus.EnRoute) := by
  constructor
  · intro hall
    have hnone : requests.find? (confirmQuery rId hospitalId) = none := by
      rw [List.find?_eq_none]
      intro x hx
      simp [hall x hx]
    refine ⟨?_, rfl⟩
    simp only [confirmBloodDelivery, hrecv, Bool.false_eq_true, if_false, hnone]
  · intro pr hok
    simp only [confirmBloodDelivery, hrecv, Bool.false_eq_true, if_false] at hok
    cases hf : requests.find? (confirmQuery rId hospitalId) with
    | none =>
      rw [hf] at hok
      cases hok
    | some r =>
      rw [hf] at hok
      injection hok with hok
      subst hok
      have hq := List.find?_some hf
      simp only [confirmQuery, decide_eq_true_eq] at hq
      exact ⟨rfl, r, rfl, hq.2.1, hq.2.2⟩

/-- C8 witness at a concrete input: confirming the sample `En Route`
request succeeds and delivers it. -/
theorem confirm_delivery_preconditions_witness :
    ∃ pr, confirmBloodDelivery [sampleRequest BRStatus.EnRoute] 1 (some 5)
        (some "Bob") none none [] 7 = Except.ok pr ∧
      pr.1.status = BRStatus.Delivered :=
  ⟨_, rfl, (((confirm_delivery_preconditions [sampleRequest BRStatus.EnRoute]
    1 5 "Bob" none none [] 7 rfl).2) _ rfl).1⟩

/-- C9 counterexample: the claim says a generated confirmation code
consists of exactly 6 upper-case alphanumeric characters.  When
`Math.random()` draws the value one half, its base-36 string is "0.i",
`substring(2, 8)` keeps only "i", and the stored code is the single
character "I". -/
theorem confirm_code_length_counterexample :
    confirmStoredCode (confirmBloodDelivery [sampleRequest BRStatus.EnRoute] 1
        (some 5) (some "Bob") none none [(18 : Fin 36)] 7) = some "I" ∧
    "I".length ≠ 6 :=
  ⟨rfl, by decide⟩

theorem base36Char_toUpper_alnum :
    ∀ d : Fin 36, isUpperAlnum (Char.toUpper (base36Char d)) = true := by
  decide

/-- C9 as amended: for every successful ConfirmDelivery in which the
caller supplies no confirmation code, the stored code is the generated
one, whose characters are all upper-case alphanumeric and number at
most 6 — exactly 6 whenever the base-36 expansion of the random draw
has at least 6 fractional digits (which is the typical case; shorter
expansions yield shorter codes). -/
theorem confirm_code_generated_format (requests : List BloodRequestDoc)
    (hospitalId rId : Id) (recv : String) (notes : Option String)
    (ds : List (Fin 36)) (now : Time)
    (pr : BloodRequestDoc × List BloodRequestDoc)
    (hrecv : recv.isEmpty = false)
    (hok : confirmBloodDelivery requests hospitalId (some rId) (some recv)
      notes none ds now = Except.ok pr) :
    pr.1.deliveryDetails.confirmationCode = some (genConfirmationCode ds) ∧
    (code36 ds).length ≤ 6 ∧
    (6 ≤ ds.length → (code36 ds).length = 6) ∧
    ∀ c ∈ code36 ds, isUpperAlnum c = true := by
  refine ⟨?_, ?_, ?_, ?_⟩
  · simp only [confirmBloodDelivery, hrecv, Bool.false_eq_true, if_false] at hok
    cases hf : requests.find? (confirmQuery rId hospitalId) with
    | none =>
      rw [hf] at hok
      cases hok
    | some r =>
      rw [hf] at hok
      injection hok with hok
      subst hok
      rfl
  · simp only [code36, List.length_map, List.length_take]
    omega
  · intro hlen
    cases ds with
    | nil => simp at hlen
    | cons a l =>
      simp only [code36, randomChars36, List.drop_succ_cons, List.drop_zero,
        List.length_map, List.length_take, List.length_cons]
      simp only [List.length_cons] at hlen
      omega
  · intro c hc
    cases ds with
    | nil =>
      simp [code36, randomChars36] at hc
    | cons a l =>
      simp only [code36, randomChars36, List.drop_succ_cons, List.drop_zero,
        List.mem_map] at hc
      obtain ⟨c0, hc0, hcu⟩ := hc
      have hc1 : c0 ∈ (a :: l).map base36Char := List.mem_of_mem_take hc0
      rw [List.mem_map] at hc1
      obtain ⟨d, _, hd⟩ := hc1
      subst hcu
      subst hd
      exact base36Char_toUpper_alnum d

/-- C9 witness at a concrete input: the theorem applied to the sample
confirmation gives the at-most-6 bound for the one-digit draw. -/
theorem confirm_code_generated_format_witness :
    (code36 [(18 : Fin 36)]).length ≤ 6 :=
  (confirm_code_generated_format [sampleRequest BRStatus.EnRoute] 1 5 "Bob"
    none [(18 : Fin 36)] 7 _ rfl rfl).2.1

/-- C4: the claim says Recompute stores, per blood group, the number of
blood units whose `centerId` is the center and whose current location
is the center (`specUnitsAtCenter` / `specAvailableAtCenter`, modelled
from the spec).  The code filters with
`currentLocation: (entityId: center)`, an exact subdocument match that
no saved record satisfies (saved records always carry `entityType` and
`updatedAt`), so it stores 0 even when a matching available unexpired
unit sits at the center: a code bug, evaluated here at the failing
input. -/
theorem inventory_recompute_counts_zero :
    invUnits ((updateBloodInventory (sampleCenter 1)
        [sampleUnit UnitStatus.available] 5).bloodInventory) BloodGroup.Oneg = 0 ∧
    invAvailable ((updateBloodInventory (sampleCenter 1)
        [sampleUnit UnitStatus.available] 5).bloodInventory) BloodGroup.Oneg = 0 ∧
    specUnitsAtCenter [sampleUnit UnitStatus.available] 4 BloodGroup.Oneg = 1 ∧
    specAvailableAtCenter [sampleUnit UnitStatus.available] 4 BloodGroup.Oneg 5 = 1 ∧
    (sampleUnit UnitStatus.available).centerId = (sampleCenter 1).id ∧
    (sampleUnit UnitStatus.available).currentLocation.entityId =
      some (sampleCenter 1).id :=
  ⟨rfl, rfl, rfl, rfl, rfl, rfl⟩

end Blood
